import Mathlib

/-!
Shallow embedding of the authentication/session subsystem of the eero-client
repository, and proofs about the claims of its specification.

The repository contains two near-duplicate implementations of the auth state
machine:
  * `AuthAPI` in `src/eero/api/auth.py` (state type `AuthSt` below), and
  * `EeroAPI` in `src/eero/api.py` (state type `EeroSt` below).
Both are embedded.  Python `Optional[str]` token fields become `Option String`;
Python truthiness of such a field (`None` and `""` are falsy) is `truthy`.
Timestamps (`datetime`) become `Nat` microseconds since an arbitrary epoch;
`datetime.now()` becomes an explicit `now` parameter; `timedelta(minutes=5)`
and `timedelta(days=30)` become microsecond constants; `.replace(microsecond=0)`
becomes `truncMicro`.  Network I/O is an oracle argument describing what the
one HTTP call of an operation returns (or which exception it raises), and the
persisted credential store is threaded explicitly as an `Option StoredSession`.
-/

namespace Eero

/-- Python truthiness of an `Optional[str]` field: `None` and `""` are falsy. -/
def truthy : Option String → Bool
  | none => false
  | some s => !s.isEmpty

/-- timedelta(minutes=5) in microseconds. -/
def minutes5 : Nat := 5 * 60 * 1000000

/-- timedelta(days=30) in microseconds. -/
def days30 : Nat := 30 * 86400 * 1000000

/-- datetime.replace(microsecond=0): truncate an instant to whole seconds. -/
def truncMicro (t : Nat) : Nat := (t / 1000000) * 1000000

/-- Session state of `AuthAPI` (src/eero/api/auth.py, `__init__`):
`_user_token`, `_refresh_token`, `_session_id`, `_user_id`,
`_preferred_network_id`, `_session_expiry`, `_login_in_progress`. -/
structure AuthSt where
  user_token : Option String := none
  refresh_token : Option String := none
  session_id : Option String := none
  user_id : Option String := none
  preferred_network_id : Option String := none
  session_expiry : Option Nat := none
  login_in_progress : Bool := false
deriving DecidableEq

/-- Session state of `EeroAPI` (src/eero/api.py, `__init__`): the same fields
except that this variant has no `_login_in_progress` flag. -/
structure EeroSt where
  user_token : Option String := none
  refresh_token : Option String := none
  session_id : Option String := none
  user_id : Option String := none
  preferred_network_id : Option String := none
  session_expiry : Option Nat := none
deriving DecidableEq

/-- The JSON blob written by `_save_to_file` / `_save_to_keyring` /
`_save_cookies`: the six persisted session fields. -/
structure StoredSession where
  user_token : Option String := none
  refresh_token : Option String := none
  session_id : Option String := none
  user_id : Option String := none
  preferred_network_id : Option String := none
  session_expiry : Option Nat := none
deriving DecidableEq

/-- Serialize the `AuthAPI` state into the persisted blob
(`AuthAPI._save_to_file`, src/eero/api/auth.py lines 200-221; the keyring
variant writes the same fields). -/
def authBlob (s : AuthSt) : StoredSession :=
  { user_token := s.user_token, refresh_token := s.refresh_token,
    session_id := s.session_id, user_id := s.user_id,
    preferred_network_id := s.preferred_network_id,
    session_expiry := s.session_expiry }

/-- Serialize the `EeroAPI` state into the persisted blob
(`EeroAPI._save_cookies`, src/eero/api.py lines 156-181). -/
def eeroBlob (s : EeroSt) : StoredSession :=
  { user_token := s.user_token, refresh_token := s.refresh_token,
    session_id := s.session_id, user_id := s.user_id,
    preferred_network_id := s.preferred_network_id,
    session_expiry := s.session_expiry }

/-- Typed exceptions of src/eero/exceptions.py that the embedded operations
raise or propagate, plus Python's built-in PermissionError (raised by `open`
on an unreadable file).  `eeroAPI` carries the HTTP status code. -/
inductive PyExc where
  | eeroAPI (status : Nat)
  | eeroAuth
  | eeroNetwork
  | eeroRateLimit
  | eeroTimeout
  | permissionError
deriving DecidableEq

deriving instance DecidableEq for Except

/-- `AuthAPI.is_authenticated` (src/eero/api/auth.py lines 61-74):
true iff `_session_id` is truthy, `_session_expiry` is set, and
`datetime.now() > _session_expiry` does not hold. -/
def authAPI_isAuthenticated (s : AuthSt) (now : Nat) : Bool :=
  if truthy s.session_id then
    match s.session_expiry with
    | some e => if now > e then false else true
    | none => false
  else false

/-- `EeroAPI.is_authenticated` (src/eero/api.py lines 80-83):
`bool(self._user_token and self._session_id)` — the expiry is not consulted. -/
def eeroAPI_isAuthenticated (s : EeroSt) : Bool :=
  truthy s.user_token && truthy s.session_id

/-- The invariant exactly as the specification states it (P1), over the
`AuthAPI` state: authenticated iff the session token is non-empty and
`session_expiry` is strictly in the future.  Written from the spec's words,
for comparison with the source-derived `authAPI_isAuthenticated`. -/
def specIsAuthenticatedAuth (s : AuthSt) (now : Nat) : Bool :=
  truthy s.session_id &&
    match s.session_expiry with
    | some e => decide (now < e)
    | none => false

/-- The invariant exactly as the specification states it (P1), over the
`EeroAPI` state.  Written from the spec's words, for comparison with the
source-derived `eeroAPI_isAuthenticated`. -/
def specIsAuthenticatedEero (s : EeroSt) (now : Nat) : Bool :=
  truthy s.session_id &&
    match s.session_expiry with
    | some e => decide (now < e)
    | none => false

/-! Identifier normalization performed at the top of `EeroAPI.login`
(src/eero/api.py lines 201-210). -/

/-- A character of the class `[0-9\s\-\(\)]` of the phone-shape regular
expression.  Python `\s` also covers some Unicode whitespace; only the ASCII
whitespace characters are listed, which is immaterial to every statement
below. -/
def isPhoneChar (c : Char) : Bool :=
  c.isDigit || c = ' ' || c = '\t' || c = '\n' || c = '\x0b' ||
    c = '\x0c' || c = '\r' || c = '-' || c = '(' || c = ')'

/-- Whether `re.match(r"^\+?[0-9\s\-\(\)]+$", s)` succeeds: an optional
leading `+` followed by one or more characters of the class.  (`$` may also
match before a final newline, but `\n` is already in the class, so the
recognized language is unchanged.) -/
def phoneShaped (s : String) : Bool :=
  match s.data with
  | [] => false
  | '+' :: cs => !cs.isEmpty && cs.all isPhoneChar
  | cs => cs.all isPhoneChar

/-- `re.sub(r"[^0-9]", "", s)`: keep only the ASCII digits. -/
def stripNonDigits (s : String) : String :=
  String.mk (s.data.filter Char.isDigit)

/-- Python `s.startswith("+")`. -/
def pyStartsWithPlus (s : String) : Bool :=
  match s.data with
  | c :: _ => c = '+'
  | [] => false

/-- The identifier clean-up of `EeroAPI.login` (src/eero/api.py lines
201-210): if the identifier looks like a phone number, strip the non-digits;
a 10-digit result becomes `+1` plus the digits; otherwise an identifier not
already starting with `+` becomes `+` plus the digits; otherwise the
identifier is left as it was received. -/
def normalizeLoginId (userIdentifier : String) : String :=
  if phoneShaped userIdentifier then
    if (stripNonDigits userIdentifier).length = 10 then
      "+1" ++ stripNonDigits userIdentifier
    else if ¬ pyStartsWithPlus userIdentifier then
      "+" ++ stripNonDigits userIdentifier
    else userIdentifier
  else userIdentifier

/-! The login operations.  `EeroAPI.login` talks to the raw HTTP session, so
its oracle is the HTTP outcome (status plus optionally-parsable JSON body, or
an `aiohttp.ClientError`); the `AuthAPI` operations go through `BaseAPI.post`,
which already classifies statuses into typed exceptions, so their oracle is
`Except PyExc body`. -/

/-- Outcome of one raw HTTP call: a connection-level `aiohttp.ClientError`,
or a response with a status code and a body (`none` when the body fails to
parse as JSON of the expected shape). -/
inductive HttpOutcome (β : Type) where
  | clientError
  | resp (status : Nat) (body : Option β)
deriving DecidableEq

/-- The part of a login response body the code reads:
`data.get("data", {}).get("user_token")`. -/
structure LoginRespBody where
  user_token : Option String
deriving DecidableEq

/-- Result of one embedded operation: the Python return value or the raised
exception, the final in-memory state, the final persisted store, and how many
network calls were issued. -/
structure OpResult (σ : Type) where
  result : Except PyExc Bool
  state : σ
  store : Option StoredSession
  netCalls : Nat
deriving DecidableEq

/-- The defensive reset at the start of `EeroAPI.login` (src/eero/api.py
lines 196-199): clear `_user_token`, `_session_id`, `_refresh_token`.  Note
that this variant does not clear `_session_expiry`. -/
def eeroLoginStart (s : EeroSt) : EeroSt :=
  { s with user_token := none, session_id := none, refresh_token := none }

/-- `EeroAPI.login` (src/eero/api.py lines 183-259), after the identifier
normalization (`normalizeLoginId`, which only affects the request payload):
clear prior tokens; issue the login POST; on `aiohttp.ClientError` raise
`EeroNetworkException`; on a non-200 status raise
`EeroAuthenticationException`; on 200 with an unparsable JSON body return
`False`; on 200 extract `data.user_token` — if truthy, set `_session_expiry`
to now + 5 minutes, persist via `_save_cookies`, and return `True`, else
return `False` without persisting. -/
def eeroLogin (s : EeroSt) (store : Option StoredSession) (now : Nat)
    (http : HttpOutcome LoginRespBody) : OpResult EeroSt :=
  let s0 := eeroLoginStart s
  match http with
  | .clientError => ⟨.error .eeroNetwork, s0, store, 1⟩
  | .resp status body =>
    if status = 200 then
      match body with
      | none => ⟨.ok false, s0, store, 1⟩
      | some b =>
        let s1 := { s0 with user_token := b.user_token }
        if truthy s1.user_token then
          let s2 := { s1 with session_expiry := some (now + minutes5) }
          ⟨.ok true, s2, some (eeroBlob s2), 1⟩
        else ⟨.ok false, s1, store, 1⟩
    else ⟨.error .eeroAuth, s0, store, 1⟩

/-- The state reached by a successful `EeroAPI.login`: the defensive reset,
then the received token, then an expiry 5 minutes from now. -/
def eeroLoginSuccessState (s : EeroSt) (tok : String) (now : Nat) : EeroSt :=
  { eeroLoginStart s with
      user_token := some tok, session_expiry := some (now + minutes5) }

/-- The defensive reset at the start of `AuthAPI.login` (src/eero/api/auth.py
lines 236-241): clear `_user_token`, `_session_id`, `_refresh_token` and
`_session_expiry`, and set `_login_in_progress`. -/
def authLoginStart (s : AuthSt) : AuthSt :=
  { s with user_token := none, session_id := none, refresh_token := none,
           session_expiry := none, login_in_progress := true }

/-- `AuthAPI.login` (src/eero/api/auth.py lines 223-275): clear prior state
and persist the cleared state; issue the login POST through `BaseAPI.post`;
on success extract `data.user_token` — if not truthy return `False`, else
persist and return `bool(user_token)`.  An `EeroAPIException` from the
transport is re-raised as `EeroAuthenticationException`; every other typed
exception propagates (the `aiohttp.ClientError` handler is dead because the
transport already converts client errors to `EeroNetworkException`).  Note
that this variant never sets `_session_expiry`. -/
def authLogin (s : AuthSt) (_store : Option StoredSession)
    (resp : Except PyExc LoginRespBody) : OpResult AuthSt :=
  let s0 := authLoginStart s
  let st0 := some (authBlob s0)
  match resp with
  | .ok b =>
    let s1 := { s0 with user_token := b.user_token }
    if truthy s1.user_token then ⟨.ok (truthy s1.user_token), s1, some (authBlob s1), 1⟩
    else ⟨.ok false, s1, st0, 1⟩
  | .error (.eeroAPI _) => ⟨.error .eeroAuth, s0, st0, 1⟩
  | .error e => ⟨.error e, s0, st0, 1⟩

/-! The verify, logout, refresh and ensure-authenticated operations. -/

/-- The part of a verify response body the code reads.  The best-effort
network-id discovery (`AuthAPI._extract_network_id_from_response`,
src/eero/api/auth.py lines 277-320, and the inline URL parsing of
`EeroAPI.verify`) is abstracted to its result, the discovered network id if
any; no claim depends on how it is computed, and a discovery failure is
caught and ignored by both implementations. -/
structure VerifyRespBody where
  networkId : Option String
deriving DecidableEq

/-- `AuthAPI.verify` (src/eero/api/auth.py lines 322-403): raise
`EeroAuthenticationException` with no network call when `_user_token` is not
truthy; otherwise POST the code.  On success promote `_user_token` to
`_session_id`, clear `_login_in_progress`, best-effort record the discovered
network id, set `_session_expiry` to 30 days from now (seconds-truncated),
and — since `_session_id` is set — persist and return `True`.  An
`EeroAPIException` from the transport is re-raised as
`EeroAuthenticationException`; other typed exceptions propagate. -/
def authVerify (s : AuthSt) (store : Option StoredSession) (now : Nat)
    (resp : Except PyExc VerifyRespBody) : OpResult AuthSt :=
  if truthy s.user_token then
    match resp with
    | .ok b =>
      let s1 := { s with session_id := s.user_token, login_in_progress := false }
      let s2 := match b.networkId with
        | some nid => { s1 with preferred_network_id := some nid }
        | none => s1
      let s3 := { s2 with session_expiry := some (truncMicro now + days30) }
      if truthy s3.session_id then ⟨.ok true, s3, some (authBlob s3), 1⟩
      else ⟨.ok false, s3, store, 1⟩
    | .error (.eeroAPI _) => ⟨.error .eeroAuth, s, store, 1⟩
    | .error e => ⟨.error e, s, store, 1⟩
  else ⟨.error .eeroAuth, s, store, 0⟩

/-- `EeroAPI.verify` (src/eero/api.py lines 261-354): raise
`EeroAuthenticationException` with no network call when `_user_token` is not
truthy; on HTTP 200 promote `_user_token` to `_session_id`, best-effort
record the network id, set `_session_expiry` to 30 days from now
(seconds-truncated), persist and return `True`; on any other status raise
`EeroAuthenticationException`; on `aiohttp.ClientError` raise
`EeroNetworkException`. -/
def eeroVerify (s : EeroSt) (store : Option StoredSession) (now : Nat)
    (http : HttpOutcome VerifyRespBody) : OpResult EeroSt :=
  if truthy s.user_token then
    match http with
    | .clientError => ⟨.error .eeroNetwork, s, store, 1⟩
    | .resp status body =>
      if status = 200 then
        let s1 := { s with session_id := s.user_token }
        let s2 := match body with
          | some b =>
            match b.networkId with
            | some nid => { s1 with preferred_network_id := some nid }
            | none => s1
          | none => s1
        let s3 := { s2 with session_expiry := some (truncMicro now + days30) }
        ⟨.ok true, s3, some (eeroBlob s3), 1⟩
      else ⟨.error .eeroAuth, s, store, 1⟩
  else ⟨.error .eeroAuth, s, store, 0⟩

/-- The token/expiry clearing performed by `AuthAPI.logout` on success, by
`AuthAPI.refresh_session` on API failure, and by `AuthAPI.clear_auth_data`:
`_user_token`, `_session_id`, `_refresh_token` and `_session_expiry` all
become `None`. -/
def clearTokens (s : AuthSt) : AuthSt :=
  { s with user_token := none, session_id := none, refresh_token := none,
           session_expiry := none }

/-- The same four-field clearing for the `EeroAPI` state
(`EeroAPI.logout` on HTTP 200). -/
def clearTokensE (s : EeroSt) : EeroSt :=
  { s with user_token := none, session_id := none, refresh_token := none,
           session_expiry := none }

/-- `AuthAPI.logout` (src/eero/api/auth.py lines 442-479): return `False`
with no network call when not authenticated; otherwise POST the logout —
on success clear all token/expiry state, persist and return `True`; on
`EeroAPIException` return `False` leaving state and store untouched; other
typed exceptions propagate. -/
def authLogout (s : AuthSt) (store : Option StoredSession) (now : Nat)
    (resp : Except PyExc Unit) : OpResult AuthSt :=
  if authAPI_isAuthenticated s now then
    match resp with
    | .ok _ =>
      let s1 := clearTokens s
      ⟨.ok true, s1, some (authBlob s1), 1⟩
    | .error (.eeroAPI _) => ⟨.ok false, s, store, 1⟩
    | .error e => ⟨.error e, s, store, 1⟩
  else ⟨.ok false, s, store, 0⟩

/-- `EeroAPI.logout` (src/eero/api.py lines 396-439): return `False` with no
network call when not authenticated; on HTTP 200 clear all token/expiry
state, persist and return `True`; on any other status return `False` leaving
state and store untouched; on `aiohttp.ClientError` raise
`EeroNetworkException`. -/
def eeroLogout (s : EeroSt) (store : Option StoredSession)
    (http : HttpOutcome Unit) : OpResult EeroSt :=
  if eeroAPI_isAuthenticated s then
    match http with
    | .clientError => ⟨.error .eeroNetwork, s, store, 1⟩
    | .resp status _ =>
      if status = 200 then
        let s1 := clearTokensE s
        ⟨.ok true, s1, some (eeroBlob s1), 1⟩
      else ⟨.ok false, s, store, 1⟩
  else ⟨.ok false, s, store, 0⟩

/-- The part of a refresh response body the code reads:
`data[SESSION_TOKEN_KEY]` and `data["refresh_token"]`.  Modelled from the
spec: `src/eero/const.py`, which defines `SESSION_TOKEN_KEY`, is not among
the sources; per the specification the refresh endpoint returns
`data.session_token` and `data.refresh_token`, so the key is taken to be
`"session_token"`.  Nothing below depends on the key's exact spelling, only
on the value being present or absent. -/
structure RefreshRespBody where
  session_token : Option String
  refresh_token : Option String
deriving DecidableEq

/-- `AuthAPI.refresh_session` (src/eero/api/auth.py lines 481-527): raise
`EeroAuthenticationException` with no network call when `_refresh_token` is
not truthy; otherwise POST the refresh token.  On a parsed response install
`data.session_token` as `_session_id` and `data.refresh_token` as
`_refresh_token`, set `_session_expiry` to 30 days from now
(seconds-truncated); then, only if the new `_session_id` is truthy, persist
and return `True`, else return `False` without persisting.  On
`EeroAPIException` clear all token/expiry state, persist, and return
`False`; other typed exceptions propagate. -/
def authRefreshSession (s : AuthSt) (store : Option StoredSession) (now : Nat)
    (resp : Except PyExc RefreshRespBody) : OpResult AuthSt :=
  if truthy s.refresh_token then
    match resp with
    | .ok b =>
      let s1 := { s with session_id := b.session_token,
                         refresh_token := b.refresh_token,
                         session_expiry := some (truncMicro now + days30) }
      if truthy s1.session_id then ⟨.ok true, s1, some (authBlob s1), 1⟩
      else ⟨.ok false, s1, store, 1⟩
    | .error (.eeroAPI _) =>
      let s1 := clearTokens s
      ⟨.ok false, s1, some (authBlob s1), 1⟩
    | .error e => ⟨.error e, s, store, 1⟩
  else ⟨.error .eeroAuth, s, store, 0⟩

/-- Result of `ensure_authenticated`: the return value or raised exception,
the final state and store, and how many times `refresh_session` was
invoked. -/
structure EnsureResult where
  result : Except PyExc Bool
  state : AuthSt
  store : Option StoredSession
  refreshCalls : Nat
deriving DecidableEq

/-- `AuthAPI.ensure_authenticated` (src/eero/api/auth.py lines 529-547):
return `False` immediately when `is_authenticated` is false; then, if
`_session_expiry` is set, `datetime.now()` is past it and `_refresh_token`
is truthy, delegate to `refresh_session`; else return `True`.  The method
reads the clock twice (once inside `is_authenticated`, once in the refresh
guard), so it takes two instants `now₁ ≤ now₂`; the clock read inside
`refresh_session` is modelled as the same instant `now₂`. -/
def authEnsureAuthenticated (s : AuthSt) (store : Option StoredSession)
    (now₁ now₂ : Nat) (refreshResp : Except PyExc RefreshRespBody) : EnsureResult :=
  if authAPI_isAuthenticated s now₁ then
    match s.session_expiry with
    | some e =>
      if decide (now₂ > e) && truthy s.refresh_token then
        let r := authRefreshSession s store now₂ refreshResp
        ⟨r.result, r.state, r.store, 1⟩
      else ⟨.ok true, s, store, 0⟩
    | none => ⟨.ok true, s, store, 0⟩
  else ⟨.ok false, s, store, 0⟩

/-! The credential-store load paths. -/

/-- Condition of the backing cookie file when a load runs. -/
inductive FileState where
  | missing
  | unreadable
  | empty
  | invalidJson
  | validJson (b : StoredSession)
deriving DecidableEq

/-- `AuthAPI._load_from_file` (src/eero/api/auth.py lines 168-198), assuming
a cookie file is configured.  A missing file raises `FileNotFoundError` and
an empty or malformed file raises `json.JSONDecodeError`, both caught by the
`except (FileNotFoundError, json.JSONDecodeError)` handler; an unreadable
file makes `open` raise `PermissionError`, which that handler does not
cover, so it propagates.  A valid blob populates the fields (the expiry only
when present); if the resulting expiry is in the past, `_session_id` and
`_session_expiry` are cleared and the cleared state is saved back. -/
def authLoadFromFile (s : AuthSt) (now : Nat) (file : FileState) :
    Except PyExc (AuthSt × FileState) :=
  match file with
  | .missing => .ok (s, file)
  | .unreadable => .error .permissionError
  | .empty => .ok (s, file)
  | .invalidJson => .ok (s, file)
  | .validJson b =>
    let s1 := { s with user_token := b.user_token,
                       refresh_token := b.refresh_token,
                       session_id := b.session_id, user_id := b.user_id,
                       preferred_network_id := b.preferred_network_id }
    let s2 := match b.session_expiry with
      | some e => { s1 with session_expiry := some e }
      | none => s1
    match s2.session_expiry with
    | some e =>
      if e < now then
        let s3 := { s2 with session_id := none, session_expiry := none }
        .ok (s3, .validJson (authBlob s3))
      else .ok (s2, file)
    | none => .ok (s2, file)

/-- `EeroAPI._load_cookies` (src/eero/api.py lines 85-154), assuming a cookie
file is configured.  A missing file, an unreadable file (pre-checked with
`os.access`), an empty file (pre-checked with `getsize`) and invalid JSON
(caught `json.JSONDecodeError`) each return early without touching the
state, and a blanket `except Exception` guards the whole body, so no failure
propagates.  A valid blob populates the fields; when both loaded tokens are
falsy it returns early; the expiry is installed only when present; a
past expiry clears `_user_token` and `_session_id` (but not the expiry
field, and nothing is saved back). -/
def eeroLoadCookies (s : EeroSt) (now : Nat) (file : FileState) :
    Except PyExc (EeroSt × FileState) :=
  match file with
  | .missing | .unreadable | .empty | .invalidJson => .ok (s, file)
  | .validJson b =>
    let s1 := { s with user_token := b.user_token,
                       refresh_token := b.refresh_token,
                       session_id := b.session_id, user_id := b.user_id,
                       preferred_network_id := b.preferred_network_id }
    if !truthy s1.user_token && !truthy s1.session_id then .ok (s1, file)
    else
      let s2 := match b.session_expiry with
        | some e => { s1 with session_expiry := some e }
        | none => s1
      match s2.session_expiry with
      | some e =>
        if e < now then .ok ({ s2 with user_token := none, session_id := none }, file)
        else .ok (s2, file)
      | none => .ok (s2, file)

/-- A session whose `session_expiry` (instant 0) has passed and whose
`refresh_token` is populated: the scenario of claim C2. -/
def c2ExpiredState : AuthSt :=
  { session_id := some "S", refresh_token := some "R", session_expiry := some 0 }

/-- An authenticated `AuthAPI` session used to witness C5. -/
def c5AuthedA : AuthSt := { session_id := some "S", session_expiry := some 100 }

/-- An authenticated `EeroAPI` session used to witness C5. -/
def c5AuthedE : EeroSt := { user_token := some "T", session_id := some "T" }

/-! The claims.  Each claim of the specification gets one theorem below
(plus, where applicable, a counterexample falsifying the claim as literally
stated and a closed witness instantiating the theorem's hypotheses). -/

/-- C1, counterexample.  The claim fails on the code in two places.
First, `AuthAPI.is_authenticated` uses `now > expiry` for the expiry test, so
at `now = expiry` (an instant that is not strictly in the future) it still
reports authenticated, while the claim's strict reading reports not
authenticated.  Second, `EeroAPI.is_authenticated` ignores the expiry
entirely: a session whose `session_expiry` (0) lies strictly in the past of
`now = 100` but whose `user_token` and `session_id` are non-empty reports
authenticated, while the claim requires not-authenticated. -/
theorem c1_counterexample :
    (authAPI_isAuthenticated { session_id := some "S", session_expiry := some 5 } 5 = true ∧
      specIsAuthenticatedAuth { session_id := some "S", session_expiry := some 5 } 5 = false) ∧
    (eeroAPI_isAuthenticated
        { user_token := some "T", session_id := some "T", session_expiry := some 0 } = true ∧
      specIsAuthenticatedEero
        { user_token := some "T", session_id := some "T", session_expiry := some 0 } 100 = false) := by
  decide

/-- C1, amended.  For `AuthAPI`, `is_authenticated` holds iff the session
token is non-empty, `session_expiry` is set, and `now` has not passed
`session_expiry` (non-strict: at `now = expiry` it still reports
authenticated); in particular a session whose expiry lies strictly in the
past reports not-authenticated even with a non-empty stored token.  The
duplicate `EeroAPI.is_authenticated` instead holds iff `user_token` and
`session_id` are both non-empty, ignoring the expiry. -/
theorem c1_is_authenticated_characterization (s : AuthSt) (s' : EeroSt) (now : Nat) :
    (authAPI_isAuthenticated s now = true ↔
      (truthy s.session_id = true ∧ ∃ e, s.session_expiry = some e ∧ now ≤ e)) ∧
    (eeroAPI_isAuthenticated s' = true ↔
      (truthy s'.user_token = true ∧ truthy s'.session_id = true)) := by
  constructor
  · unfold authAPI_isAuthenticated
    cases he : s.session_expiry with
    | none =>
      by_cases ht : truthy s.session_id = true <;> simp [ht]
    | some e =>
      by_cases ht : truthy s.session_id = true
      · simp only [ht, if_true]
        by_cases hlt : now > e
        · simp [hlt]
        · simp [hlt]
          omega
      · simp [ht]
  · simp [eeroAPI_isAuthenticated, Bool.and_eq_true]

/-- C2: evaluating `ensure_authenticated` at the failing input.  On a session
with a past expiry and a populated refresh token — and an oracle under which
the refresh call would succeed with a fresh token — the code returns `False`
having invoked `refresh_session` zero times, because the expired session
already fails the initial `is_authenticated` check, which makes the refresh
branch unreachable (it would require `now ≤ expiry` and `now > expiry` at
once; it can fire only in the race where the expiry falls strictly between
the method's two clock reads). -/
theorem c2_ensure_authenticated_skips_refresh :
    authEnsureAuthenticated c2ExpiredState none 100 100 (.ok ⟨some "NEW", some "R2"⟩) =
      ⟨.ok false, c2ExpiredState, none, 0⟩ := by
  decide

/-- C3, counterexample.  Running `AuthAPI.login` against a 200 response whose
body carries `data.user_token = "T1"` succeeds (returns `True`) and stores the
token, but leaves `session_expiry` unset (`none`) rather than setting it to
5 minutes from now: the 5-minute verification window exists only in the
`EeroAPI.login` duplicate. -/
theorem c3_counterexample :
    (authLogin {} none (.ok ⟨some "T1"⟩)).result = .ok true ∧
    (authLogin {} none (.ok ⟨some "T1"⟩)).state.user_token = some "T1" ∧
    (authLogin {} none (.ok ⟨some "T1"⟩)).state.session_expiry = none := by
  decide

/-- C3, amended.  For `EeroAPI.login`: after a login call whose HTTP 200
response contains `data.user_token`, the stored `user_token` equals that
value, `session_expiry` is set to 5 minutes from now, the session is
persisted, and login returns true; a 200 response carrying no (or an empty)
`user_token`, or an unparsable 200 body, makes login return false rather than
raise, while a client error raises `EeroNetworkException` and a non-200
status raises `EeroAuthenticationException`.  The `AuthAPI.login` duplicate
likewise stores and persists the token and returns true (false when no token
arrives), but never sets `session_expiry`. -/
theorem c3_eero_login_behavior (s : EeroSt) (store : Option StoredSession)
    (now : Nat) (tok : String) (status : Nat) (b : Option LoginRespBody)
    (htok : tok ≠ "") (hst : status ≠ 200) :
    eeroLogin s store now (.resp 200 (some ⟨some tok⟩)) =
      ⟨.ok true, eeroLoginSuccessState s tok now,
       some (eeroBlob (eeroLoginSuccessState s tok now)), 1⟩ ∧
    eeroLogin s store now (.resp 200 (some ⟨none⟩)) =
      ⟨.ok false, eeroLoginStart s, store, 1⟩ ∧
    eeroLogin s store now (.resp 200 (some ⟨some ""⟩)) =
      ⟨.ok false, { eeroLoginStart s with user_token := some "" }, store, 1⟩ ∧
    eeroLogin s store now (.resp 200 none) =
      ⟨.ok false, eeroLoginStart s, store, 1⟩ ∧
    eeroLogin s store now .clientError =
      ⟨.error .eeroNetwork, eeroLoginStart s, store, 1⟩ ∧
    eeroLogin s store now (.resp status b) =
      ⟨.error .eeroAuth, eeroLoginStart s, store, 1⟩ := by
  have hie : tok.isEmpty = false := by
    cases hb : tok.isEmpty
    · rfl
    · exact absurd ((String.isEmpty_iff tok).mp hb) htok
  have htr : truthy (some tok) = true := by simp [truthy, hie]
  refine ⟨?_, ?_, ?_, ?_, ?_, ?_⟩
  · unfold eeroLogin eeroLoginSuccessState
    simp [htr]
  · rfl
  · rfl
  · rfl
  · rfl
  · simp [eeroLogin, hst]

/-- C3, witness: `c3_eero_login_behavior` at a concrete fresh client, token
`"T1"`, failing status 500. -/
theorem c3_witness :
    eeroLogin {} none 1000000 (.resp 200 (some ⟨some "T1"⟩)) =
      ⟨.ok true, eeroLoginSuccessState {} "T1" 1000000,
       some (eeroBlob (eeroLoginSuccessState {} "T1" 1000000)), 1⟩ :=
  (c3_eero_login_behavior {} none 1000000 "T1" 500 none (by decide) (by decide)).1

/-- C4: on a session holding a refresh token, a refresh call that raises an
API error makes `refresh_session` return `False`, and afterwards
`user_token`, `session_id`, `refresh_token` and `session_expiry` are all
`None` and the cleared state has been persisted. -/
theorem c4_refresh_failure_clears_all (s : AuthSt) (store : Option StoredSession)
    (now code : Nat) (h : truthy s.refresh_token = true) :
    authRefreshSession s store now (.error (.eeroAPI code)) =
      ⟨.ok false, clearTokens s, some (authBlob (clearTokens s)), 1⟩ ∧
    (clearTokens s).user_token = none ∧ (clearTokens s).session_id = none ∧
    (clearTokens s).refresh_token = none ∧ (clearTokens s).session_expiry = none := by
  refine ⟨?_, rfl, rfl, rfl, rfl⟩
  simp [authRefreshSession, h]

/-- C4, witness: `c4_refresh_failure_clears_all` at a concrete session
holding refresh token `"R"` and a server 500. -/
theorem c4_witness :
    authRefreshSession { refresh_token := some "R" } none 7 (.error (.eeroAPI 500)) =
      ⟨.ok false, clearTokens { refresh_token := some "R" },
       some (authBlob (clearTokens { refresh_token := some "R" })), 1⟩ :=
  (c4_refresh_failure_clears_all { refresh_token := some "R" } none 7 500 (by decide)).1

/-- C5: logout is asymmetric to refresh, in both implementations.  When not
authenticated it returns `False` with no network call and no exception; when
authenticated and the server call fails with an API error (an
`EeroAPIException` for `AuthAPI`, a non-200 status for `EeroAPI`) it returns
`False` leaving every token and expiry field — and the persisted store —
untouched; only on server success are all token/expiry fields cleared and
the cleared state persisted. -/
theorem c5_logout_asymmetry (sA : AuthSt) (sE : EeroSt)
    (store : Option StoredSession) (now : Nat)
    (resp : Except PyExc Unit) (code status : Nat) :
    (authAPI_isAuthenticated sA now = false →
      authLogout sA store now resp = ⟨.ok false, sA, store, 0⟩) ∧
    (authAPI_isAuthenticated sA now = true →
      authLogout sA store now (.error (.eeroAPI code)) = ⟨.ok false, sA, store, 1⟩) ∧
    (authAPI_isAuthenticated sA now = true →
      authLogout sA store now (.ok ()) =
        ⟨.ok true, clearTokens sA, some (authBlob (clearTokens sA)), 1⟩) ∧
    (eeroAPI_isAuthenticated sE = false →
      ∀ http, eeroLogout sE store http = ⟨.ok false, sE, store, 0⟩) ∧
    (eeroAPI_isAuthenticated sE = true → status ≠ 200 →
      eeroLogout sE store (.resp status none) = ⟨.ok false, sE, store, 1⟩) ∧
    (eeroAPI_isAuthenticated sE = true →
      eeroLogout sE store (.resp 200 none) =
        ⟨.ok true, clearTokensE sE, some (eeroBlob (clearTokensE sE)), 1⟩) := by
  refine ⟨?_, ?_, ?_, ?_, ?_, ?_⟩
  · intro h; simp [authLogout, h]
  · intro h; simp [authLogout, h]
  · intro h; simp [authLogout, h]
  · intro h http; simp [eeroLogout, h]
  · intro h hs; simp [eeroLogout, h, hs]
  · intro h; simp [eeroLogout, h]

/-- C5, witness: `c5_logout_asymmetry` at a fresh (unauthenticated) client
and at concrete authenticated sessions, with a server 500 and a server
success. -/
theorem c5_witness :
    authLogout {} none 0 (.ok ()) = ⟨.ok false, {}, none, 0⟩ ∧
    authLogout c5AuthedA none 50 (.error (.eeroAPI 500)) = ⟨.ok false, c5AuthedA, none, 1⟩ ∧
    authLogout c5AuthedA none 50 (.ok ()) =
      ⟨.ok true, clearTokens c5AuthedA, some (authBlob (clearTokens c5AuthedA)), 1⟩ ∧
    eeroLogout {} none (.resp 200 none) = ⟨.ok false, {}, none, 0⟩ ∧
    eeroLogout c5AuthedE none (.resp 500 none) = ⟨.ok false, c5AuthedE, none, 1⟩ ∧
    eeroLogout c5AuthedE none (.resp 200 none) =
      ⟨.ok true, clearTokensE c5AuthedE, some (eeroBlob (clearTokensE c5AuthedE)), 1⟩ :=
  ⟨(c5_logout_asymmetry {} {} none 0 (.ok ()) 0 0).1 (by decide),
   (c5_logout_asymmetry c5AuthedA c5AuthedE none 50 (.ok ()) 500 500).2.1 (by decide),
   (c5_logout_asymmetry c5AuthedA c5AuthedE none 50 (.ok ()) 500 500).2.2.1 (by decide),
   (c5_logout_asymmetry {} {} none 0 (.ok ()) 0 0).2.2.2.1 (by decide) (.resp 200 none),
   (c5_logout_asymmetry c5AuthedA c5AuthedE none 50 (.ok ()) 500 500).2.2.2.2.1
     (by decide) (by decide),
   (c5_logout_asymmetry c5AuthedA c5AuthedE none 50 (.ok ()) 500 500).2.2.2.2.2 (by decide)⟩

/-- C6, counterexample.  `"+1 555-123-4567"` is phone-shaped (digits, spaces,
dashes, a leading `+`), yet the code passes it through completely unmodified —
its spaces and dashes are not stripped — because it already starts with `+`
and its digit count is 11, contradicting the claim that for every such
identifier "all non-digits are stripped". -/
theorem c6_counterexample :
    phoneShaped "+1 555-123-4567" = true ∧
    stripNonDigits "+1 555-123-4567" = "15551234567" ∧
    normalizeLoginId "+1 555-123-4567" = "+1 555-123-4567" := by
  decide

/-- C6, amended.  For an identifier consisting solely of digits, spaces,
dashes, parentheses and an optional leading `+`: if exactly 10 digits remain
after stripping non-digits, the result is `+1` followed by them; otherwise,
if the identifier does not already start with `+`, the result is a single `+`
followed by the stripped digits; otherwise (it starts with `+` and has a
digit count other than 10) the identifier is passed through completely
unmodified, non-digits included.  A non-phone-shaped identifier (e.g. an
email address) is passed through unmodified.  In particular
`"555-123-4567" ↦ "+15551234567"` and `"1-555-123-4567" ↦ "+15551234567"`. -/
theorem c6_normalization :
    normalizeLoginId "555-123-4567" = "+15551234567" ∧
    normalizeLoginId "1-555-123-4567" = "+15551234567" ∧
    normalizeLoginId "user@example.com" = "user@example.com" ∧
    (∀ s, phoneShaped s = true → (stripNonDigits s).length = 10 →
      normalizeLoginId s = "+1" ++ stripNonDigits s) ∧
    (∀ s, phoneShaped s = true → (stripNonDigits s).length ≠ 10 →
      pyStartsWithPlus s = false → normalizeLoginId s = "+" ++ stripNonDigits s) ∧
    (∀ s, phoneShaped s = true → (stripNonDigits s).length ≠ 10 →
      pyStartsWithPlus s = true → normalizeLoginId s = s) ∧
    (∀ s, phoneShaped s = false → normalizeLoginId s = s) := by
  refine ⟨by decide, by decide, by decide, ?_, ?_, ?_, ?_⟩
  · intro s h1 h2
    simp [normalizeLoginId, h1, h2]
  · intro s h1 h2 h3
    simp [normalizeLoginId, h1, h2, h3]
  · intro s h1 h2 h3
    simp [normalizeLoginId, h1, h2, h3]
  · intro s h1
    simp [normalizeLoginId, h1]

/-- C6, witness: the general clauses of `c6_normalization` applied at
concrete identifiers. -/
theorem c6_witness :
    normalizeLoginId "(555) 123 4567" = "+15551234567" ∧
    normalizeLoginId "44 20 7946 0958" = "+442079460958" ∧
    normalizeLoginId "+44 20 7946 0958" = "+44 20 7946 0958" :=
  ⟨c6_normalization.2.2.2.1 "(555) 123 4567" (by decide) (by decide),
   c6_normalization.2.2.2.2.1 "44 20 7946 0958" (by decide) (by decide) (by decide),
   c6_normalization.2.2.2.2.2.1 "+44 20 7946 0958" (by decide) (by decide) (by decide)⟩

/-- C7: calling verify on a session whose `user_token` is not truthy raises
`EeroAuthenticationException` ("No user token available. Login first.") with
zero network calls, leaving the in-memory state and the persisted store
untouched — in both implementations, whatever the oracle would have
answered. -/
theorem c7_verify_precondition (sA : AuthSt) (sE : EeroSt)
    (stA stE : Option StoredSession) (now : Nat)
    (respA : Except PyExc VerifyRespBody) (httpE : HttpOutcome VerifyRespBody)
    (hA : truthy sA.user_token = false) (hE : truthy sE.user_token = false) :
    authVerify sA stA now respA = ⟨.error .eeroAuth, sA, stA, 0⟩ ∧
    eeroVerify sE stE now httpE = ⟨.error .eeroAuth, sE, stE, 0⟩ := by
  constructor
  · simp [authVerify, hA]
  · simp [eeroVerify, hE]

/-- C7, witness: `c7_verify_precondition` at fresh clients (no login has
run, so `user_token` is `None`). -/
theorem c7_witness :
    authVerify {} none 0 (.ok ⟨none⟩) = ⟨.error .eeroAuth, {}, none, 0⟩ ∧
    eeroVerify {} none 0 (.resp 200 (some ⟨none⟩)) = ⟨.error .eeroAuth, {}, none, 0⟩ :=
  c7_verify_precondition {} {} none none 0 (.ok ⟨none⟩) (.resp 200 (some ⟨none⟩))
    (by decide) (by decide)

/-- C8, counterexample.  A successful `AuthAPI.verify` on a session whose
`user_token` is `"T1"` returns `True` and promotes `"T1"` to `_session_id`,
but `user_token` is NOT cleared: it remains `"T1"` in memory, and the
persisted blob written by the same call still carries it too. -/
theorem c8_counterexample :
    (authVerify { user_token := some "T1" } none 0 (.ok ⟨none⟩)).result = .ok true ∧
    (authVerify { user_token := some "T1" } none 0 (.ok ⟨none⟩)).state.session_id = some "T1" ∧
    (authVerify { user_token := some "T1" } none 0 (.ok ⟨none⟩)).state.user_token = some "T1" ∧
    (authVerify { user_token := some "T1" } none 0 (.ok ⟨none⟩)).store =
      some (authBlob (authVerify { user_token := some "T1" } none 0 (.ok ⟨none⟩)).state) := by
  decide

/-- C8, amended.  After a successful verify, the stored `session_id` equals
the exact `user_token` string that was sent (the same opaque string is
promoted across both roles) — but `user_token` is not cleared once the
session token exists: it remains stored, equal to the session token, in both
implementations. -/
theorem c8_verify_promotes_token (sA : AuthSt) (sE : EeroSt)
    (stA stE : Option StoredSession) (now : Nat) (t : String)
    (bA bE : VerifyRespBody)
    (hA : sA.user_token = some t) (hAt : truthy sA.user_token = true)
    (hE : sE.user_token = some t) (hEt : truthy sE.user_token = true) :
    ((authVerify sA stA now (.ok bA)).result = .ok true ∧
     (authVerify sA stA now (.ok bA)).state.session_id = some t ∧
     (authVerify sA stA now (.ok bA)).state.user_token = some t) ∧
    ((eeroVerify sE stE now (.resp 200 (some bE))).result = .ok true ∧
     (eeroVerify sE stE now (.resp 200 (some bE))).state.session_id = some t ∧
     (eeroVerify sE stE now (.resp 200 (some bE))).state.user_token = some t) := by
  rw [hA] at hAt
  rw [hE] at hEt
  constructor
  · cases hb : bA.networkId <;> simp [authVerify, hAt, hA, hb]
  · cases hb : bE.networkId <;> simp [eeroVerify, hEt, hE, hb]

/-- C8, witness: `c8_verify_promotes_token` at a session holding user token
`"T1"`, a response that discovers network `"N1"`, and one that discovers
none. -/
theorem c8_witness :
    ((authVerify { user_token := some "T1" } none 42 (.ok ⟨some "N1"⟩)).result = .ok true ∧
     (authVerify { user_token := some "T1" } none 42 (.ok ⟨some "N1"⟩)).state.session_id = some "T1" ∧
     (authVerify { user_token := some "T1" } none 42 (.ok ⟨some "N1"⟩)).state.user_token = some "T1") ∧
    ((eeroVerify { user_token := some "T1" } none 42 (.resp 200 (some ⟨none⟩))).result = .ok true ∧
     (eeroVerify { user_token := some "T1" } none 42 (.resp 200 (some ⟨none⟩))).state.session_id = some "T1" ∧
     (eeroVerify { user_token := some "T1" } none 42 (.resp 200 (some ⟨none⟩))).state.user_token = some "T1") :=
  c8_verify_promotes_token { user_token := some "T1" } { user_token := some "T1" }
    none none 42 "T1" ⟨some "N1"⟩ ⟨none⟩ rfl (by decide) rfl (by decide)

/-- C9, counterexample.  Loading from an unreadable backing file makes
`AuthAPI._load_from_file` propagate Python's `PermissionError`: the
`except (FileNotFoundError, json.JSONDecodeError)` handler does not cover
it, contradicting the claim that every failure case soft-fails. -/
theorem c9_counterexample :
    authLoadFromFile {} 0 .unreadable = .error .permissionError := rfl

/-- C9, amended.  The claim holds for `EeroAPI._load_cookies`: a backing
file that is missing, unreadable due to permissions, empty, or invalid JSON
makes the load complete without raising and leave the session state exactly
as it was (so a fresh client stays sessionless), for every starting state.
The `AuthAPI._load_from_file` duplicate soft-fails only the missing-file,
empty and invalid-JSON cases; a permission error propagates there. -/
theorem c9_eero_load_total (s : EeroSt) (now : Nat) :
    eeroLoadCookies s now .missing = .ok (s, .missing) ∧
    eeroLoadCookies s now .unreadable = .ok (s, .unreadable) ∧
    eeroLoadCookies s now .empty = .ok (s, .empty) ∧
    eeroLoadCookies s now .invalidJson = .ok (s, .invalidJson) ∧
    authLoadFromFile ({} : AuthSt) now .missing = .ok ({}, .missing) ∧
    authLoadFromFile ({} : AuthSt) now .empty = .ok ({}, .empty) ∧
    authLoadFromFile ({} : AuthSt) now .invalidJson = .ok ({}, .invalidJson) :=
  ⟨rfl, rfl, rfl, rfl, rfl, rfl, rfl⟩

/-- C10: when the refresh endpoint replies 200 with a body carrying no
`session_token`, `refresh_session` returns `False` — but only after
overwriting `_session_id` with `None`, `_refresh_token` with whatever the
response carried, and `_session_expiry` with an instant 30 days ahead; and
this half-mutated state is not persisted: the store is returned exactly as
it was, so the in-memory session diverges from the persisted one. -/
theorem c10_refresh_no_token_half_mutated (s : AuthSt) (store : Option StoredSession)
    (now : Nat) (rt : Option String) (h : truthy s.refresh_token = true) :
    authRefreshSession s store now (.ok ⟨none, rt⟩) =
      ⟨.ok false,
        { s with
            session_id := none,
            refresh_token := rt,
            session_expiry := some (truncMicro now + days30) },
        store, 1⟩ := by
  have hn : truthy none = false := rfl
  simp [authRefreshSession, h, hn]

/-- C10, witness: `c10_refresh_no_token_half_mutated` at a live session
whose current state had been persisted; after the call the store still holds
the old session while memory holds the half-mutated one. -/
theorem c10_witness :
    authRefreshSession
        { user_token := some "U", session_id := some "OLD", refresh_token := some "R" }
        (some (authBlob { user_token := some "U", session_id := some "OLD",
                          refresh_token := some "R" }))
        2500000 (.ok ⟨none, some "R2"⟩) =
      ⟨.ok false,
        { ({ user_token := some "U", session_id := some "OLD",
             refresh_token := some "R" } : AuthSt) with
            session_id := none,
            refresh_token := some "R2",
            session_expiry := some (truncMicro 2500000 + days30) },
        some (authBlob { user_token := some "U", session_id := some "OLD",
                         refresh_token := some "R" }), 1⟩ :=
  c10_refresh_no_token_half_mutated
    { user_token := some "U", session_id := some "OLD", refresh_token := some "R" }
    (some (authBlob { user_token := some "U", session_id := some "OLD",
                      refresh_token := some "R" }))
    2500000 (some "R2") (by decide)

end Eero
